import Mathlib

set_option maxRecDepth 8192

/-!
Verification of the request-orchestration logic of
`credit-report-processor-gcf/main.py` (repository `creditai`).

The Python module drives one HTTP request through a linear pipeline:
validate the JSON body, download a PDF, OCR it with Vision AI, ask a
generative model to structure the text as JSON, ask it to flag
violations, ask it to draft a dispute letter, insert the assembled
record into Supabase, and answer 200/400/500.

Shallow embedding conventions:
 * Python strings are Lean `String`s; the fence-stripping string surgery
   is embedded over `List Char` (Python `str` slicing is positional over
   code points, which `List Char` models exactly).
 * Every remote or library effect (HTTP fetch, PyPDF2, Vision AI, the
   three Gemini calls, `json.loads`, the Supabase insert, and
   `datetime.now`) is an input supplied by an `Env` record; a Python
   exception raised by a call is `Except.error msg` with `msg = str(e)`.
 * JSON values are the inductive `JsonVal`; JSON numbers are modelled as
   `Int` (no claim depends on float behaviour).
 * `request.get_json(silent=True)` is `Option (List (String × JsonVal))`:
   `none` models an absent/unparsable body, `some fields` a JSON object
   body (the only body shapes the claims quantify over).
 * The pipeline result is the response (pre-`json.dumps` body and status
   code) paired with the list of collaborator invocations actually made,
   in order, so that specification sentences of the form "collaborator X
   is never invoked" are statable.
-/

/-- One JSON value, as produced by Python's `json.loads`. -/
inductive JsonVal : Type where
  | null : JsonVal
  | bool : Bool → JsonVal
  | num : Int → JsonVal
  | str : String → JsonVal
  | arr : List JsonVal → JsonVal
  | obj : List (String × JsonVal) → JsonVal
deriving Repr

/-- Python truthiness of a JSON value: `None`, `False`, `0`, `""`, `[]`
and the empty object are falsy; everything else is truthy. -/
def JsonVal.falsy : JsonVal → Bool
  | .null => true
  | .bool b => !b
  | .num n => n == 0
  | .str s => s == ""
  | .arr xs => xs.isEmpty
  | .obj fs => fs.isEmpty

/-- Python truthiness of an optional value (`None` is falsy). -/
def optFalsy : Option JsonVal → Bool
  | none => true
  | some v => v.falsy

/-- Python `len` applied to a JSON value: defined on strings, lists and
dicts, a `TypeError` (modelled as `Except.error`) otherwise. -/
def pyLen : JsonVal → Except String Nat
  | .str s => .ok s.length
  | .arr xs => .ok xs.length
  | .obj fs => .ok fs.length
  | _ => .error "object of this type has no len"

/-- Python `d.get(key, default)`: defined on dicts, an `AttributeError`
(modelled as `Except.error`) on any other value. -/
def pyGet : JsonVal → String → JsonVal → Except String JsonVal
  | .obj fs, key, dflt => .ok (((fs.lookup key)).getD dflt)
  | _, _, _ => .error "object has no attribute get"

/-- The whitespace set stripped by Python `str.strip()` (for the ASCII
range relevant here). -/
def pyWs (c : Char) : Bool :=
  c == ' ' || c == '\t' || c == '\n' || c == '\r' || c == '\x0b' || c == '\x0c'

/-- Python `s.strip()` over a code-point list. -/
def pyStrip (s : List Char) : List Char :=
  (((s.dropWhile pyWs).reverse.dropWhile pyWs)).reverse

/-- The backtick character (written via its code point). -/
def btick : Char := Char.ofNat 96

/-- The opening tag checked by `json_str.startswith("```json")`. -/
def fenceJsonTag : List Char := [btick, btick, btick, 'j', 's', 'o', 'n']

/-- The fence checked by `json_str.startswith("```")` / `endswith("```")`. -/
def fenceTag : List Char := [btick, btick, btick]

/-- The opening of a markdown ```json fence (tag plus newline). -/
def fenceJsonOpen : List Char := [btick, btick, btick, 'j', 's', 'o', 'n', '\n']

/-- The opening of a plain markdown ``` fence. -/
def fenceOpen : List Char := [btick, btick, btick, '\n']

/-- The closing of a markdown fence (newline plus three backticks). -/
def fenceClose : List Char := ['\n', btick, btick, btick]

/-- The markdown-fence stripping applied to every generative-model
response before `json.loads` (main.py lines 180-184 and 228-232):

    json_str = response.text.strip()
    if json_str.startswith("```json") and json_str.endswith("```"):
        json_str = json_str[7:-3].strip()
    elif json_str.startswith("```") and json_str.endswith("```"):
        json_str = json_str[3:-3].strip()

Python's `s[a:-b]` is `(s.drop a).take (s.length - b - a)` with
truncating natural subtraction, exactly as here. -/
def stripCodeFence (s : List Char) : List Char :=
  let t := pyStrip s
  if fenceJsonTag.isPrefixOf t && fenceTag.isSuffixOf t then
    pyStrip ((t.drop 7).take (t.length - 3 - 7))
  else if fenceTag.isPrefixOf t && fenceTag.isSuffixOf t then
    pyStrip ((t.drop 3).take (t.length - 3 - 3))
  else t

/-- Lift of `stripCodeFence` to `String`. -/
def stripCodeFenceS (s : String) : String := String.mk (stripCodeFence s.data)

/-- One collaborator invocation made by the orchestrator, in the order
the Python code issues them. -/
inductive Step : Type where
  | fetch : Step
  | extract : Step
  | structuring : Step
  | detect : Step
  | draft : Step
  | persist : Step
deriving Repr, DecidableEq

/-- The parts of a Vision AI `document_text_detection` response read by
`extract_text_from_pdf_with_vision_ai`: `response.error.message` (empty
string means no error) and `response.full_text_annotation` (`none`
models an unset/falsy annotation, `some t` one whose `.text` is `t`). -/
structure VisionAnnot : Type where
  errorMessage : String
  fullText : Option String

/-- The record inserted into the `credit_reports_analysis` table
(main.py lines 341-349). -/
structure SupabaseData : Type where
  user_id : JsonVal
  pdf_url : JsonVal
  extracted_text : String
  parsed_data : JsonVal
  violations : JsonVal
  dispute_letter : String
  processed_at : String

/-- Everything external to the orchestration logic, supplied as data:
the parsed request body and the behaviour of each remote collaborator
and library call.  A Python exception raised by a call is
`Except.error msg` with `msg = str(e)`. -/
structure Env : Type where
  /-- Value of `request.get_json(silent=True)`: `none` for an absent or
  unparsable body, otherwise the JSON object's fields. -/
  requestJson : Option (List (String × JsonVal))
  /-- Outcome of `requests.get(pdf_url, timeout=30)` followed by
  `raise_for_status()` and `.content`: the PDF bytes, or the raised
  transport/HTTP error (timeout, non-2xx status, connection failure). -/
  fetchResult : Except String (List Nat)
  /-- Value of `len(PyPDF2.PdfReader(io.BytesIO(pdf_content)).pages)`, or the
  error a corrupt document raises. -/
  pdfPageCount : List Nat → Except String Nat
  /-- Outcome of `vision_client.document_text_detection(image)`: the remote OCR
  call. -/
  visionCall : List Nat → Except String VisionAnnot
  /-- The `response.text` of the Gemini structuring call on the given
  extracted text (main.py lines 178-180). -/
  structureText : String → Except String String
  /-- The `response.text` of the Gemini violation-detection call on the
  given parsed report (main.py lines 227-228). -/
  detectText : JsonVal → Except String String
  /-- The `response.text` of the Gemini letter call on the given personal
  info and violation list (main.py lines 268-270). -/
  letterText : JsonVal → JsonVal → Except String String
  /-- Python's `json.loads`: a JSON value, or the `JSONDecodeError` an
  invalid document raises. -/
  jsonLoads : String → Except String JsonVal
  /-- Outcome of `supabase.table("credit_reports_analysis").insert(d).execute()`:
  the response's `.data`, or the raised write error. -/
  insertResult : SupabaseData → Except String JsonVal
  /-- Value of `datetime.now().isoformat()`. -/
  nowIso : String

/-- The HTTP response: body (before `json.dumps`) and status code. -/
structure HttpResp : Type where
  body : JsonVal
  code : Nat

/-- The uniform error body `{"status": "error", "message": msg}`. -/
def errorEnvelope (msg : String) : JsonVal :=
  .obj [("status", .str "error"), ("message", .str msg)]

/-- The success body (main.py lines 355-364). -/
def successBody (respData : JsonVal) (nviol nacc ninq : Nat) : JsonVal :=
  .obj [("status", .str "success"),
        ("message", .str "Credit report processed successfully"),
        ("data", respData),
        ("summary", .obj [("violations_found", .num nviol),
                          ("accounts_analyzed", .num nacc),
                          ("inquiries_found", .num ninq)])]

/-- The field extraction of main.py lines 295-298:

    if request_json and 'pdf_url' in request_json:
        pdf_url = request_json['pdf_url']

`none` models the variable staying `None`. -/
def requestField (rj : Option (List (String × JsonVal))) (key : String) :
    Option JsonVal :=
  match rj with
  | none => none
  | some fields =>
    if !fields.isEmpty && fields.any (fun p => p.1 == key) then
      fields.lookup key
    else
      none

/-- Embedding of `extract_text_from_pdf_with_vision_ai` (main.py lines 100-130),
paired with the OCR invocations it makes (the Vision call happens only
if the local PyPDF2 page check passed). -/
def extract_text_from_pdf_with_vision_ai (env : Env) (pdf_content : List Nat) :
    Except String String × List Step :=
  match env.pdfPageCount pdf_content with
  | .error e => (.error e, [])
  | .ok npages =>
    if npages = 0 then (.error "PDF has no pages", [])
    else
      match env.visionCall pdf_content with
      | .error e => (.error e, [Step.extract])
      | .ok resp =>
        if resp.errorMessage == "" then
          match resp.fullText with
          | some t => (.ok t, [Step.extract])
          | none => (.ok "", [Step.extract])
        else
          (.error ("Vision AI error: " ++ resp.errorMessage), [Step.extract])

/-- Embedding of `parse_credit_report_with_gemini` (main.py lines 132-191): call the
model, strip a possible markdown fence, `json.loads` the remainder; any
exception propagates. -/
def parse_credit_report_with_gemini (env : Env) (credit_report_text : String) :
    Except String JsonVal × List Step :=
  match env.structureText credit_report_text with
  | .error e => (.error e, [Step.structuring])
  | .ok t => (env.jsonLoads (stripCodeFenceS t), [Step.structuring])

/-- Embedding of `detect_violations_with_gemini` (main.py lines 193-239): same shape
as the structuring call, on the parsed report, except that the success
log at line 235 interpolates `len(violations)` into an f-string before
returning, so a parse result without a `len` (a number, boolean or
null) raises a `TypeError` inside this step and the step fails. -/
def detect_violations_with_gemini (env : Env) (parsed_data : JsonVal) :
    Except String JsonVal × List Step :=
  match env.detectText parsed_data with
  | .error e => (.error e, [Step.detect])
  | .ok t =>
    match env.jsonLoads (stripCodeFenceS t) with
    | .error e => (.error e, [Step.detect])
    | .ok violations =>
      match pyLen violations with
      | .error e => (.error e, [Step.detect])
      | .ok _ => (.ok violations, [Step.detect])

/-- Embedding of `generate_dispute_letter_with_gemini` (main.py lines 241-273): the
model's `response.text` is returned verbatim; any exception
propagates. -/
def generate_dispute_letter_with_gemini (env : Env)
    (personal_info violations : JsonVal) : Except String String × List Step :=
  (env.letterText personal_info violations, [Step.draft])

/-- The record assembled at main.py lines 341-349 (`supabase_data`). -/
def analysisRecord (env : Env) (extracted_text : String)
    (parsed dv : JsonVal) (dispute_letter : String) : SupabaseData :=
  { user_id := (requestField env.requestJson "user_id").getD JsonVal.null
    pdf_url := (requestField env.requestJson "pdf_url").getD JsonVal.null
    extracted_text := extracted_text
    parsed_data := parsed
    violations := dv
    dispute_letter := dispute_letter
    processed_at := env.nowIso }

/-- Main.py lines 355-364: the success body's summary is computed after
the insert; a `len` `TypeError` there (non-sequence value) would surface
as the catch-all 500. -/
def summaryResponse (parsed dv respData : JsonVal) : HttpResp :=
  match pyLen dv with
  | .error e => ⟨errorEnvelope e, 500⟩
  | .ok nviol =>
    match pyGet parsed "accounts" (JsonVal.arr []) with
    | .error e => ⟨errorEnvelope e, 500⟩
    | .ok accounts =>
      match pyLen accounts with
      | .error e => ⟨errorEnvelope e, 500⟩
      | .ok nacc =>
        match pyGet parsed "inquiries" (JsonVal.arr []) with
        | .error e => ⟨errorEnvelope e, 500⟩
        | .ok inquiries =>
          match pyLen inquiries with
          | .error e => ⟨errorEnvelope e, 500⟩
          | .ok ninq => ⟨successBody respData nviol nacc ninq, 200⟩

/-- Main.py lines 337-364: insert the assembled record, then shape the
success body; an insert failure is caught by the surrounding handler as
a 500 with the raised message. -/
def persistAndRespond (env : Env) (extracted_text : String)
    (parsed dv : JsonVal) (dispute_letter : String) : HttpResp :=
  match env.insertResult (analysisRecord env extracted_text parsed dv dispute_letter) with
  | .error e => ⟨errorEnvelope e, 500⟩
  | .ok respData => summaryResponse parsed dv respData

/-- Embedding of `process_credit_report` (main.py lines 277-368): the HTTP entry
point, paired with the ordered list of collaborator invocations its run
makes.  Every `raise` inside the `try` block lands in the catch-all
`except` returning `({"status": "error", "message": str(e)}, 500)`. -/
def process_credit_report (env : Env) : HttpResp × List Step :=
  if optFalsy (requestField env.requestJson "pdf_url")
      || optFalsy (requestField env.requestJson "user_id") then
    (⟨errorEnvelope "Missing pdf_url or user_id", 400⟩, [])
  else
    match env.fetchResult with
    | .error e => (⟨errorEnvelope e, 500⟩, [Step.fetch])
    | .ok pdf_content =>
      match extract_text_from_pdf_with_vision_ai env pdf_content with
      | (.error e, tr1) => (⟨errorEnvelope e, 500⟩, Step.fetch :: tr1)
      | (.ok extracted_text, tr1) =>
        if extracted_text == "" then
          (⟨errorEnvelope "Could not extract text from PDF.", 500⟩, Step.fetch :: tr1)
        else
          match parse_credit_report_with_gemini env extracted_text with
          | (.error e, tr2) => (⟨errorEnvelope e, 500⟩, Step.fetch :: (tr1 ++ tr2))
          | (.ok parsed_credit_report, tr2) =>
            if parsed_credit_report.falsy then
              (⟨errorEnvelope "Could not parse credit report data.", 500⟩,
               Step.fetch :: (tr1 ++ tr2))
            else
              match detect_violations_with_gemini env parsed_credit_report with
              | (.error e, tr3) =>
                (⟨errorEnvelope e, 500⟩, Step.fetch :: (tr1 ++ tr2 ++ tr3))
              | (.ok detected_violations, tr3) =>
                match pyGet parsed_credit_report "personal_info" (JsonVal.obj []) with
                | .error e =>
                  (⟨errorEnvelope e, 500⟩, Step.fetch :: (tr1 ++ tr2 ++ tr3))
                | .ok personal_info =>
                  match generate_dispute_letter_with_gemini env personal_info
                      detected_violations with
                  | (.error e, tr4) =>
                    (⟨errorEnvelope e, 500⟩,
                     Step.fetch :: (tr1 ++ tr2 ++ tr3 ++ tr4))
                  | (.ok dispute_letter, tr4) =>
                    (persistAndRespond env extracted_text parsed_credit_report
                       detected_violations dispute_letter,
                     Step.fetch :: (tr1 ++ tr2 ++ tr3 ++ tr4 ++ [Step.persist]))

/-- The JSON document returned by the structuring model in the witness
environments (braces written with their escapes). -/
def reportJson : String :=
  "\x7b\"personal_info\": \x7b\"name\": \"JOHN DOE\"\x7d, \"accounts\": [\x7b\"creditor_name\": \"CHASE BANK\"\x7d], \"inquiries\": []\x7d"

/-- The value the real `json.loads` produces on `reportJson`. -/
def reportVal : JsonVal :=
  .obj [("personal_info", .obj [("name", .str "JOHN DOE")]),
        ("accounts", .arr [.obj [("creditor_name", .str "CHASE BANK")]]),
        ("inquiries", .arr [])]

/-- The JSON array returned by the detection model in the witness
environments. -/
def violationsJson : String :=
  "[\x7b\"title\": \"Obsolete Charge-Off\", \"severity\": \"HIGH\"\x7d]"

/-- The single element of what the real `json.loads` produces on
`violationsJson`. -/
def violationVal : JsonVal :=
  .obj [("title", .str "Obsolete Charge-Off"),
        ("severity", .str "HIGH")]

/-- A concrete environment in which every collaborator succeeds: the
fetch returns bytes, OCR returns text, the structuring model returns a
json-fenced JSON report, the detection model returns a plain-fenced
JSON array of one violation, the letter model returns text, and the
insert succeeds.  The `jsonLoads` component agrees with the real
`json.loads` on every string a run of these environments applies it to:
the two valid JSON documents parse to their real parses, `"[]"` parses
to the empty array, and anything else (in particular the empty string)
raises. -/
def happyEnv : Env :=
  { requestJson := some [("pdf_url", .str "https://x/report.pdf"),
                         ("user_id", .str "user-1")]
    fetchResult := .ok [37, 80, 68, 70]
    pdfPageCount := fun _ => .ok 1
    visionCall := fun _ => .ok ⟨"", some "JOHN DOE CHASE BANK Current"⟩
    structureText := fun _ => .ok ("```json\n" ++ reportJson ++ "\n```")
    detectText := fun _ => .ok ("```\n" ++ violationsJson ++ "\n```")
    letterText := fun _ _ => .ok "Dear Credit Bureau, I dispute the following."
    jsonLoads := fun s =>
      if s = reportJson then .ok reportVal
      else if s = violationsJson then .ok (.arr [violationVal])
      else if s = "[]" then .ok (.arr [])
      else .error "Expecting value: line 1 column 1 (char 0)"
    insertResult := fun _ => .ok (.arr [.obj [("id", .num 1)]])
    nowIso := "2026-01-01T00:00:00" }

/-- Variant of `happyEnv` with the letter model returning empty text. -/
def emptyLetterEnv : Env :=
  { happyEnv with letterText := fun _ _ => .ok "" }

/-- Variant of `happyEnv` with a failing persistence write. -/
def failInsertEnv : Env :=
  { happyEnv with insertResult := fun _ => .error "db down" }

/-- Variant of `happyEnv` with a request body missing `pdf_url`. -/
def missingUrlEnv : Env :=
  { happyEnv with requestJson := some [("user_id", JsonVal.str "user-1")] }

/-- Variant of `happyEnv` with an absent/unparsable request body. -/
def noBodyEnv : Env :=
  { happyEnv with requestJson := none }

/-- Variant of `happyEnv` with the document fetch raising (e.g. a 404). -/
def fetchFailEnv : Env :=
  { happyEnv with fetchResult := .error "404 Client Error: Not Found" }

/-- Variant of `happyEnv` with OCR returning no full-text annotation, so that
extraction returns the empty string. -/
def emptyTextEnv : Env :=
  { happyEnv with visionCall := fun _ => .ok ⟨"", none⟩ }

/-- Variant of `happyEnv` with the structuring model returning empty text. -/
def emptyStructureEnv : Env :=
  { happyEnv with structureText := fun _ => .ok "" }

/-- Variant of `happyEnv` with the detection model returning a fenced `[]`. -/
def emptyDetectEnv : Env :=
  { happyEnv with detectText := fun _ => .ok "```\n[]\n```" }

/-- Validation passes: both request fields are present and truthy. -/
def validRequest (env : Env) : Prop :=
  optFalsy (requestField env.requestJson "pdf_url") = false ∧
  optFalsy (requestField env.requestJson "user_id") = false

/-- C1: for every request body in which `pdf_url` or `user_id` is
missing or the empty string, `process_credit_report` returns HTTP 400
with body `errorEnvelope "Missing pdf_url or user_id"` and makes no
collaborator invocation at all. -/
theorem C1_missing_field_rejected (env : Env)
    (h : requestField env.requestJson "pdf_url" = none
       ∨ requestField env.requestJson "pdf_url" = some (JsonVal.str "")
       ∨ requestField env.requestJson "user_id" = none
       ∨ requestField env.requestJson "user_id" = some (JsonVal.str "")) :
    process_credit_report env =
      (⟨errorEnvelope "Missing pdf_url or user_id", 400⟩, []) := by
  have hg : (optFalsy (requestField env.requestJson "pdf_url")
      || optFalsy (requestField env.requestJson "user_id")) = true := by
    rcases h with h | h | h | h <;> simp [h, optFalsy, JsonVal.falsy]
  simp [process_credit_report, hg]

theorem C1_missing_field_rejected_witness :
    (requestField missingUrlEnv.requestJson "pdf_url" = none
       ∨ requestField missingUrlEnv.requestJson "pdf_url" = some (JsonVal.str "")
       ∨ requestField missingUrlEnv.requestJson "user_id" = none
       ∨ requestField missingUrlEnv.requestJson "user_id" = some (JsonVal.str ""))
    ∧ process_credit_report missingUrlEnv =
        (⟨errorEnvelope "Missing pdf_url or user_id", 400⟩, []) :=
  ⟨Or.inl rfl, C1_missing_field_rejected missingUrlEnv (Or.inl rfl)⟩

/-- C10: for every request whose body is absent or not valid JSON
(`get_json(silent=True)` returns `None`), `process_credit_report`
returns the same HTTP 400 "Missing pdf_url or user_id" response as for
a missing field, with no collaborator invoked and no unhandled error. -/
theorem C10_no_body_rejected (env : Env) (h : env.requestJson = none) :
    process_credit_report env =
      (⟨errorEnvelope "Missing pdf_url or user_id", 400⟩, []) := by
  simp [process_credit_report, requestField, h, optFalsy]

theorem C10_no_body_rejected_witness :
    noBodyEnv.requestJson = none
    ∧ process_credit_report noBodyEnv =
        (⟨errorEnvelope "Missing pdf_url or user_id", 400⟩, []) :=
  ⟨rfl, C10_no_body_rejected noBodyEnv rfl⟩

/-- C4: for every request that passes validation but whose document
fetch raises (timeout, non-2xx via `raise_for_status`, connection
failure), `process_credit_report` returns HTTP 500 with the raised
message, and the only collaborator invoked is the fetch itself: no
extraction, structuring, detection, drafting or persistence call is
made. -/
theorem C4_fetch_failure_aborts (env : Env) (e : String)
    (hv : validRequest env) (hf : env.fetchResult = .error e) :
    process_credit_report env = (⟨errorEnvelope e, 500⟩, [Step.fetch]) := by
  obtain ⟨h1, h2⟩ := hv
  simp [process_credit_report, h1, h2, hf]

theorem C4_fetch_failure_aborts_witness :
    validRequest fetchFailEnv
    ∧ fetchFailEnv.fetchResult = .error "404 Client Error: Not Found"
    ∧ process_credit_report fetchFailEnv =
        (⟨errorEnvelope "404 Client Error: Not Found", 500⟩, [Step.fetch]) :=
  ⟨⟨rfl, rfl⟩, rfl,
    C4_fetch_failure_aborts fetchFailEnv "404 Client Error: Not Found"
      ⟨rfl, rfl⟩ rfl⟩

/-- The extraction step makes at most the one OCR invocation. -/
theorem extract_trace (env : Env) (pdf : List Nat) :
    (extract_text_from_pdf_with_vision_ai env pdf).2 = []
    ∨ (extract_text_from_pdf_with_vision_ai env pdf).2 = [Step.extract] := by
  unfold extract_text_from_pdf_with_vision_ai
  rcases env.pdfPageCount pdf with e | n
  · exact Or.inl rfl
  · dsimp only
    split
    · exact Or.inl rfl
    · rcases env.visionCall pdf with e | r
      · exact Or.inr rfl
      · dsimp only
        split
        · rcases r.fullText with _ | t <;> exact Or.inr rfl
        · exact Or.inr rfl

/-- C5: for every request that passes validation and fetches, if text
extraction returns the empty string or raises (local PDF error, OCR
error, or missing annotation), `process_credit_report` answers HTTP 500
with an error envelope and never invokes the structuring collaborator:
empty extracted text is a failure, not an empty success. -/
theorem C5_empty_extraction_fails (env : Env) (pdf : List Nat)
    (hv : validRequest env) (hf : env.fetchResult = .ok pdf)
    (hx : (extract_text_from_pdf_with_vision_ai env pdf).1 = .ok ""
        ∨ ∃ e, (extract_text_from_pdf_with_vision_ai env pdf).1 = .error e) :
    (process_credit_report env).1.code = 500
    ∧ (∃ m, (process_credit_report env).1.body = errorEnvelope m)
    ∧ Step.structuring ∉ (process_credit_report env).2 := by
  obtain ⟨h1, h2⟩ := hv
  rcases hp : extract_text_from_pdf_with_vision_ai env pdf with ⟨r, tr⟩
  have htr : tr = [] ∨ tr = [Step.extract] := by
    have h := extract_trace env pdf
    rw [hp] at h
    exact h
  rcases hx with hx | ⟨e, hx⟩ <;> rw [hp] at hx <;> dsimp only at hx <;> subst hx
  · have hproc : process_credit_report env =
        (⟨errorEnvelope "Could not extract text from PDF.", 500⟩, Step.fetch :: tr) := by
      simp [process_credit_report, h1, h2, hf, hp]
    rw [hproc]
    refine ⟨rfl, ⟨_, rfl⟩, ?_⟩
    rcases htr with h | h <;> subst h <;> simp
  · have hproc : process_credit_report env =
        (⟨errorEnvelope e, 500⟩, Step.fetch :: tr) := by
      simp [process_credit_report, h1, h2, hf, hp]
    rw [hproc]
    refine ⟨rfl, ⟨_, rfl⟩, ?_⟩
    rcases htr with h | h <;> subst h <;> simp

theorem C5_empty_extraction_fails_witness :
    ((extract_text_from_pdf_with_vision_ai emptyTextEnv [37, 80, 68, 70]).1 = .ok ""
        ∨ ∃ e, (extract_text_from_pdf_with_vision_ai emptyTextEnv [37, 80, 68, 70]).1 = .error e)
    ∧ (process_credit_report emptyTextEnv).1.code = 500
    ∧ (∃ m, (process_credit_report emptyTextEnv).1.body = errorEnvelope m)
    ∧ Step.structuring ∉ (process_credit_report emptyTextEnv).2 :=
  ⟨Or.inl rfl,
    C5_empty_extraction_fails emptyTextEnv [37, 80, 68, 70] ⟨rfl, rfl⟩ rfl (Or.inl rfl)⟩

/-- C6: for every structuring-model response that, after
fence-stripping, is not valid JSON (`json.loads` raises — including the
empty-text response) or parses to a falsy value, `process_credit_report`
answers HTTP 500 with an error envelope instead of succeeding with
empty data. -/
theorem C6_bad_structuring_fails (env : Env) (pdf : List Nat)
    (txt st : String) (trx : List Step)
    (hv : validRequest env) (hf : env.fetchResult = .ok pdf)
    (hx : extract_text_from_pdf_with_vision_ai env pdf = (.ok txt, trx))
    (htxt : txt ≠ "")
    (hst : env.structureText txt = .ok st)
    (hload : (∃ e, env.jsonLoads (stripCodeFenceS st) = .error e)
           ∨ ∃ v, env.jsonLoads (stripCodeFenceS st) = .ok v ∧ v.falsy = true) :
    (process_credit_report env).1.code = 500
    ∧ ∃ m, (process_credit_report env).1.body = errorEnvelope m := by
  obtain ⟨h1, h2⟩ := hv
  rcases hload with ⟨e, hl⟩ | ⟨v, hl, hfal⟩
  · have hproc : (process_credit_report env).1 = ⟨errorEnvelope e, 500⟩ := by
      simp [process_credit_report, parse_credit_report_with_gemini,
            h1, h2, hf, hx, htxt, hst, hl]
    rw [hproc]
    exact ⟨rfl, e, rfl⟩
  · have hproc : (process_credit_report env).1 =
        ⟨errorEnvelope "Could not parse credit report data.", 500⟩ := by
      simp [process_credit_report, parse_credit_report_with_gemini,
            h1, h2, hf, hx, htxt, hst, hl, hfal]
    rw [hproc]
    exact ⟨rfl, _, rfl⟩

theorem C6_bad_structuring_fails_witness :
    emptyStructureEnv.structureText "JOHN DOE CHASE BANK Current" = .ok ""
    ∧ (∃ e, emptyStructureEnv.jsonLoads (stripCodeFenceS "") = .error e)
    ∧ (process_credit_report emptyStructureEnv).1.code = 500
    ∧ ∃ m, (process_credit_report emptyStructureEnv).1.body = errorEnvelope m :=
  ⟨rfl, ⟨"Expecting value: line 1 column 1 (char 0)", rfl⟩,
    C6_bad_structuring_fails emptyStructureEnv [37, 80, 68, 70]
      "JOHN DOE CHASE BANK Current" "" [Step.extract] ⟨rfl, rfl⟩ rfl rfl
      (by decide) rfl
      (Or.inl ⟨"Expecting value: line 1 column 1 (char 0)", rfl⟩)⟩

/-- C7: for every run in which the detection model's response parses
(after fence-stripping) to the valid empty array `[]`, the pipeline is
not aborted: the letter is drafted, the record is persisted, the
response is HTTP 200 and its summary reports `violations_found = 0`. -/
theorem C7_zero_violations_succeed (env : Env) (pdf : List Nat)
    (txt st dt letter : String) (pv pi av iv rd : JsonVal) (na ni : Nat)
    (hv : validRequest env) (hf : env.fetchResult = .ok pdf)
    (hx : extract_text_from_pdf_with_vision_ai env pdf = (.ok txt, [Step.extract]))
    (htxt : txt ≠ "")
    (hst : env.structureText txt = .ok st)
    (hpv : env.jsonLoads (stripCodeFenceS st) = .ok pv)
    (hfal : pv.falsy = false)
    (hdt : env.detectText pv = .ok dt)
    (hdl : env.jsonLoads (stripCodeFenceS dt) = .ok (JsonVal.arr []))
    (hpi : pyGet pv "personal_info" (JsonVal.obj []) = .ok pi)
    (hlt : env.letterText pi (JsonVal.arr []) = .ok letter)
    (hins : env.insertResult (analysisRecord env txt pv (JsonVal.arr []) letter) = .ok rd)
    (hacc : pyGet pv "accounts" (JsonVal.arr []) = .ok av)
    (hna : pyLen av = .ok na)
    (hinq : pyGet pv "inquiries" (JsonVal.arr []) = .ok iv)
    (hni : pyLen iv = .ok ni) :
    process_credit_report env =
      (⟨successBody rd 0 na ni, 200⟩,
       [Step.fetch, Step.extract, Step.structuring, Step.detect,
        Step.draft, Step.persist]) := by
  obtain ⟨h1, h2⟩ := hv
  have h0 : pyLen (JsonVal.arr []) = .ok 0 := rfl
  simp [process_credit_report, parse_credit_report_with_gemini,
        detect_violations_with_gemini, generate_dispute_letter_with_gemini,
        persistAndRespond, summaryResponse,
        h1, h2, hf, hx, htxt, hst, hpv, hfal, hdt, hdl, hpi, hlt, hins,
        h0, hacc, hna, hinq, hni]

theorem C7_zero_violations_succeed_witness :
    emptyDetectEnv.jsonLoads (stripCodeFenceS "```\n[]\n```") = .ok (JsonVal.arr [])
    ∧ process_credit_report emptyDetectEnv =
        (⟨successBody (.arr [.obj [("id", .num 1)]]) 0 1 0, 200⟩,
         [Step.fetch, Step.extract, Step.structuring, Step.detect,
          Step.draft, Step.persist]) :=
  ⟨rfl,
    C7_zero_violations_succeed emptyDetectEnv [37, 80, 68, 70]
      "JOHN DOE CHASE BANK Current" ("```json\n" ++ reportJson ++ "\n```")
      "```\n[]\n```"
      "Dear Credit Bureau, I dispute the following."
      reportVal (.obj [("name", .str "JOHN DOE")])
      (.arr [.obj [("creditor_name", .str "CHASE BANK")]]) (.arr [])
      (.arr [.obj [("id", .num 1)]]) 1 0
      ⟨rfl, rfl⟩ rfl rfl (by decide) rfl rfl rfl rfl rfl rfl rfl rfl rfl rfl rfl rfl⟩

/-- Inversion of the pipeline: if a run invoked the persistence
collaborator, or answered HTTP 200, then validation passed and every
upstream step (fetch, page check, OCR, structuring, detection, personal
info lookup, letter drafting) succeeded with a non-empty / truthy
result, and the whole run equals the explicit persist-then-respond
tail on those intermediate values. -/
theorem process_persist_inversion (env : Env)
    (h : Step.persist ∈ (process_credit_report env).2
       ∨ (process_credit_report env).1.code = 200) :
    ∃ pdf npages vr txt st pv dt dv pi letter,
      env.fetchResult = .ok pdf
      ∧ env.pdfPageCount pdf = .ok npages ∧ npages ≠ 0
      ∧ env.visionCall pdf = .ok vr ∧ vr.errorMessage = ""
      ∧ vr.fullText = some txt ∧ txt ≠ ""
      ∧ env.structureText txt = .ok st
      ∧ env.jsonLoads (stripCodeFenceS st) = .ok pv ∧ pv.falsy = false
      ∧ env.detectText pv = .ok dt
      ∧ env.jsonLoads (stripCodeFenceS dt) = .ok dv
      ∧ pyGet pv "personal_info" (JsonVal.obj []) = .ok pi
      ∧ env.letterText pi dv = .ok letter
      ∧ process_credit_report env =
          (persistAndRespond env txt pv dv letter,
           [Step.fetch, Step.extract, Step.structuring, Step.detect,
            Step.draft, Step.persist]) := by
  by_cases hval : (optFalsy (requestField env.requestJson "pdf_url")
      || optFalsy (requestField env.requestJson "user_id")) = true
  · simp [process_credit_report, hval] at h
  rw [Bool.not_eq_true] at hval
  rcases hf : env.fetchResult with e | pdf
  · simp [process_credit_report, hval, hf] at h
  rcases hp : env.pdfPageCount pdf with e | npages
  · simp [process_credit_report, extract_text_from_pdf_with_vision_ai,
          hval, hf, hp] at h
  by_cases hn : npages = 0
  · simp [process_credit_report, extract_text_from_pdf_with_vision_ai,
          hval, hf, hp, hn] at h
  rcases hvc : env.visionCall pdf with e | vr
  · simp [process_credit_report, extract_text_from_pdf_with_vision_ai,
          hval, hf, hp, hn, hvc] at h
  by_cases he : vr.errorMessage = ""
  case neg =>
    simp [process_credit_report, extract_text_from_pdf_with_vision_ai,
          hval, hf, hp, hn, hvc, he] at h
  rcases hft : vr.fullText with _ | txt
  · simp [process_credit_report, extract_text_from_pdf_with_vision_ai,
          hval, hf, hp, hn, hvc, he, hft] at h
  by_cases htxt : txt = ""
  · simp [process_credit_report, extract_text_from_pdf_with_vision_ai,
          hval, hf, hp, hn, hvc, he, hft, htxt] at h
  rcases hst : env.structureText txt with e | st
  · simp [process_credit_report, extract_text_from_pdf_with_vision_ai,
          parse_credit_report_with_gemini,
          hval, hf, hp, hn, hvc, he, hft, htxt, hst] at h
  rcases hl : env.jsonLoads (stripCodeFenceS st) with e | pv
  · simp [process_credit_report, extract_text_from_pdf_with_vision_ai,
          parse_credit_report_with_gemini,
          hval, hf, hp, hn, hvc, he, hft, htxt, hst, hl] at h
  by_cases hfal : pv.falsy = true
  · simp [process_credit_report, extract_text_from_pdf_with_vision_ai,
          parse_credit_report_with_gemini,
          hval, hf, hp, hn, hvc, he, hft, htxt, hst, hl, hfal] at h
  rw [Bool.not_eq_true] at hfal
  rcases hdt : env.detectText pv with e | dt
  · simp [process_credit_report, extract_text_from_pdf_with_vision_ai,
          parse_credit_report_with_gemini, detect_violations_with_gemini,
          hval, hf, hp, hn, hvc, he, hft, htxt, hst, hl, hfal, hdt] at h
  rcases hdl : env.jsonLoads (stripCodeFenceS dt) with e | dv
  · simp [process_credit_report, extract_text_from_pdf_with_vision_ai,
          parse_credit_report_with_gemini, detect_violations_with_gemini,
          hval, hf, hp, hn, hvc, he, hft, htxt, hst, hl, hfal, hdt, hdl] at h
  rcases hlen : pyLen dv with e | nviol0
  · simp [process_credit_report, extract_text_from_pdf_with_vision_ai,
          parse_credit_report_with_gemini, detect_violations_with_gemini,
          hval, hf, hp, hn, hvc, he, hft, htxt, hst, hl, hfal, hdt, hdl,
          hlen] at h
  rcases hpi : pyGet pv "personal_info" (JsonVal.obj []) with e | pi
  · simp [process_credit_report, extract_text_from_pdf_with_vision_ai,
          parse_credit_report_with_gemini, detect_violations_with_gemini,
          hval, hf, hp, hn, hvc, he, hft, htxt, hst, hl, hfal, hdt, hdl,
          hlen, hpi] at h
  rcases hlt : env.letterText pi dv with e | letter
  · simp [process_credit_report, extract_text_from_pdf_with_vision_ai,
          parse_credit_report_with_gemini, detect_violations_with_gemini,
          generate_dispute_letter_with_gemini,
          hval, hf, hp, hn, hvc, he, hft, htxt, hst, hl, hfal, hdt, hdl,
          hlen, hpi, hlt] at h
  exact ⟨pdf, npages, vr, txt, st, pv, dt, dv, pi, letter,
    rfl, hp, hn, hvc, he, hft, htxt, hst, hl, hfal, hdt, hdl, hpi, hlt, by
      simp [process_credit_report, extract_text_from_pdf_with_vision_ai,
            parse_credit_report_with_gemini, detect_violations_with_gemini,
            generate_dispute_letter_with_gemini,
            hval, hf, hp, hn, hvc, he, hft, htxt, hst, hl, hfal, hdt, hdl,
            hlen, hpi, hlt]⟩

/-- C2: the persisted record is only ever assembled and written after
every upstream step has succeeded — a persistence invocation implies
the fetch, page check, OCR (non-empty text), structuring (truthy JSON),
detection and letter drafting all produced results, so no partial
record is ever written; and conversely, when the persistence write
itself raises, the response is the HTTP 500 error envelope, never a
success. -/
theorem C2_no_partial_persistence (env : Env) :
    (Step.persist ∈ (process_credit_report env).2 →
      ∃ pdf npages vr txt st pv dt dv pi letter,
        env.fetchResult = .ok pdf
        ∧ env.pdfPageCount pdf = .ok npages ∧ npages ≠ 0
        ∧ env.visionCall pdf = .ok vr ∧ vr.errorMessage = ""
        ∧ vr.fullText = some txt ∧ txt ≠ ""
        ∧ env.structureText txt = .ok st
        ∧ env.jsonLoads (stripCodeFenceS st) = .ok pv ∧ pv.falsy = false
        ∧ env.detectText pv = .ok dt
        ∧ env.jsonLoads (stripCodeFenceS dt) = .ok dv
        ∧ pyGet pv "personal_info" (JsonVal.obj []) = .ok pi
        ∧ env.letterText pi dv = .ok letter)
    ∧ (∀ e, (∀ d, env.insertResult d = .error e) →
        Step.persist ∈ (process_credit_report env).2 →
        (process_credit_report env).1 = ⟨errorEnvelope e, 500⟩) := by
  constructor
  · intro hmem
    obtain ⟨pdf, npages, vr, txt, st, pv, dt, dv, pi, letter,
      h1, h2, h3, h4, h5, h6, h7, h8, h9, h10, h11, h12, h13, h14, hrun⟩ :=
      process_persist_inversion env (Or.inl hmem)
    exact ⟨pdf, npages, vr, txt, st, pv, dt, dv, pi, letter,
      h1, h2, h3, h4, h5, h6, h7, h8, h9, h10, h11, h12, h13, h14⟩
  · intro e hins hmem
    obtain ⟨pdf, npages, vr, txt, st, pv, dt, dv, pi, letter,
      h1, h2, h3, h4, h5, h6, h7, h8, h9, h10, h11, h12, h13, h14, hrun⟩ :=
      process_persist_inversion env (Or.inl hmem)
    rw [hrun]
    simp [persistAndRespond, hins]

theorem C2_no_partial_persistence_witness :
    (∀ d, failInsertEnv.insertResult d = .error "db down")
    ∧ Step.persist ∈ (process_credit_report failInsertEnv).2
    ∧ (process_credit_report failInsertEnv).1 = ⟨errorEnvelope "db down", 500⟩ :=
  ⟨fun _ => rfl, by decide,
    (C2_no_partial_persistence failInsertEnv).2 "db down" (fun _ => rfl) (by decide)⟩

/-- C9: every HTTP 200 response carries a summary whose three integer
counts are the Python `len` of the corresponding lists of the run:
`violations_found` counts the parsed detection result,
`accounts_analyzed` counts `parsed.get("accounts", [])` and
`inquiries_found` counts `parsed.get("inquiries", [])`, a list absent
from the structured report defaulting to `[]` and hence to zero. -/
theorem C9_summary_counts (env : Env)
    (h200 : (process_credit_report env).1.code = 200) :
    ∃ pdf npages vr txt st pv dt dv pi letter rd av iv nviol na ni,
      env.fetchResult = .ok pdf
      ∧ env.pdfPageCount pdf = .ok npages ∧ npages ≠ 0
      ∧ env.visionCall pdf = .ok vr ∧ vr.errorMessage = ""
      ∧ vr.fullText = some txt ∧ txt ≠ ""
      ∧ env.structureText txt = .ok st
      ∧ env.jsonLoads (stripCodeFenceS st) = .ok pv ∧ pv.falsy = false
      ∧ env.detectText pv = .ok dt
      ∧ env.jsonLoads (stripCodeFenceS dt) = .ok dv
      ∧ pyGet pv "personal_info" (JsonVal.obj []) = .ok pi
      ∧ env.letterText pi dv = .ok letter
      ∧ env.insertResult (analysisRecord env txt pv dv letter) = .ok rd
      ∧ pyLen dv = .ok nviol
      ∧ pyGet pv "accounts" (JsonVal.arr []) = .ok av
      ∧ pyLen av = .ok na
      ∧ pyGet pv "inquiries" (JsonVal.arr []) = .ok iv
      ∧ pyLen iv = .ok ni
      ∧ (process_credit_report env).1 = ⟨successBody rd nviol na ni, 200⟩ := by
  obtain ⟨pdf, npages, vr, txt, st, pv, dt, dv, pi, letter,
    h1, h2, h3, h4, h5, h6, h7, h8, h9, h10, h11, h12, h13, h14, hrun⟩ :=
    process_persist_inversion env (Or.inr h200)
  rw [hrun] at h200
  rcases hins : env.insertResult (analysisRecord env txt pv dv letter) with e | rd
  · simp [persistAndRespond, hins] at h200
  rcases hnv : pyLen dv with e | nviol
  · simp [persistAndRespond, summaryResponse, hins, hnv] at h200
  rcases hav : pyGet pv "accounts" (JsonVal.arr []) with e | av
  · simp [persistAndRespond, summaryResponse, hins, hnv, hav] at h200
  rcases hna : pyLen av with e | na
  · simp [persistAndRespond, summaryResponse, hins, hnv, hav, hna] at h200
  rcases hiv : pyGet pv "inquiries" (JsonVal.arr []) with e | iv
  · simp [persistAndRespond, summaryResponse, hins, hnv, hav, hna, hiv] at h200
  rcases hni : pyLen iv with e | ni
  · simp [persistAndRespond, summaryResponse, hins, hnv, hav, hna, hiv, hni] at h200
  refine ⟨pdf, npages, vr, txt, st, pv, dt, dv, pi, letter, rd, av, iv, nviol, na, ni,
    h1, h2, h3, h4, h5, h6, h7, h8, h9, h10, h11, h12, h13, h14,
    hins, hnv, hav, hna, hiv, hni, ?_⟩
  rw [hrun]
  simp [persistAndRespond, summaryResponse, hins, hnv, hav, hna, hiv, hni]

theorem C9_summary_counts_witness :
    (process_credit_report happyEnv).1.code = 200
    ∧ ∃ pdf npages vr txt st pv dt dv pi letter rd av iv nviol na ni,
      happyEnv.fetchResult = .ok pdf
      ∧ happyEnv.pdfPageCount pdf = .ok npages ∧ npages ≠ 0
      ∧ happyEnv.visionCall pdf = .ok vr ∧ vr.errorMessage = ""
      ∧ vr.fullText = some txt ∧ txt ≠ ""
      ∧ happyEnv.structureText txt = .ok st
      ∧ happyEnv.jsonLoads (stripCodeFenceS st) = .ok pv ∧ pv.falsy = false
      ∧ happyEnv.detectText pv = .ok dt
      ∧ happyEnv.jsonLoads (stripCodeFenceS dt) = .ok dv
      ∧ pyGet pv "personal_info" (JsonVal.obj []) = .ok pi
      ∧ happyEnv.letterText pi dv = .ok letter
      ∧ happyEnv.insertResult (analysisRecord happyEnv txt pv dv letter) = .ok rd
      ∧ pyLen dv = .ok nviol
      ∧ pyGet pv "accounts" (JsonVal.arr []) = .ok av
      ∧ pyLen av = .ok na
      ∧ pyGet pv "inquiries" (JsonVal.arr []) = .ok iv
      ∧ pyLen iv = .ok ni
      ∧ (process_credit_report happyEnv).1 = ⟨successBody rd nviol na ni, 200⟩ :=
  ⟨rfl, C9_summary_counts happyEnv rfl⟩

/-- C8 counterexample: a concrete run in which the letter-generation
collaborator is invoked and returns empty text, yet
`process_credit_report` returns the full HTTP 200 success response —
the code has no emptiness check on the generated letter, so the claim's
"returns empty text → fails with HTTP 500" is false. -/
theorem C8_counterexample_empty_letter_succeeds :
    emptyLetterEnv.letterText (.obj [("name", .str "JOHN DOE")])
        (.arr [violationVal]) = .ok ""
    ∧ Step.draft ∈ (process_credit_report emptyLetterEnv).2
    ∧ (process_credit_report emptyLetterEnv).1 =
        ⟨successBody (.arr [.obj [("id", .num 1)]]) 1 1 0, 200⟩ :=
  ⟨rfl, by decide, rfl⟩

/-- C8 (amended): in a run whose steps up to the personal-info lookup
succeeded — including the detection step, whose success log takes the
`len` of its parsed result — a letter-generation failure (raised
exception) yields HTTP 500 with the raised message and no persistence;
and whenever the collaborator returns text — empty or not — that text
is used verbatim as the `dispute_letter` field of the persisted record
and the run proceeds to persistence. -/
theorem C8_amended_letter_handling (env : Env) (pdf : List Nat)
    (txt st dt : String) (pv pi dv : JsonVal) (nviol0 : Nat)
    (hv : validRequest env) (hf : env.fetchResult = .ok pdf)
    (hx : extract_text_from_pdf_with_vision_ai env pdf = (.ok txt, [Step.extract]))
    (htxt : txt ≠ "")
    (hst : env.structureText txt = .ok st)
    (hpv : env.jsonLoads (stripCodeFenceS st) = .ok pv)
    (hfal : pv.falsy = false)
    (hdt : env.detectText pv = .ok dt)
    (hdl : env.jsonLoads (stripCodeFenceS dt) = .ok dv)
    (hdlen : pyLen dv = .ok nviol0)
    (hpi : pyGet pv "personal_info" (JsonVal.obj []) = .ok pi) :
    (∀ e, env.letterText pi dv = .error e →
       process_credit_report env =
         (⟨errorEnvelope e, 500⟩,
          [Step.fetch, Step.extract, Step.structuring, Step.detect, Step.draft]))
    ∧ (∀ t, env.letterText pi dv = .ok t →
         (analysisRecord env txt pv dv t).dispute_letter = t
         ∧ process_credit_report env =
             (persistAndRespond env txt pv dv t,
              [Step.fetch, Step.extract, Step.structuring, Step.detect,
               Step.draft, Step.persist])) := by
  obtain ⟨h1, h2⟩ := hv
  constructor
  · intro e hlt
    simp [process_credit_report, parse_credit_report_with_gemini,
          detect_violations_with_gemini, generate_dispute_letter_with_gemini,
          h1, h2, hf, hx, htxt, hst, hpv, hfal, hdt, hdl, hdlen, hpi, hlt]
  · intro t hlt
    refine ⟨rfl, ?_⟩
    simp [process_credit_report, parse_credit_report_with_gemini,
          detect_violations_with_gemini, generate_dispute_letter_with_gemini,
          h1, h2, hf, hx, htxt, hst, hpv, hfal, hdt, hdl, hdlen, hpi, hlt]

theorem C8_amended_letter_handling_witness :
    emptyLetterEnv.letterText (.obj [("name", .str "JOHN DOE")])
        (.arr [violationVal]) = .ok ""
    ∧ (analysisRecord emptyLetterEnv "JOHN DOE CHASE BANK Current" reportVal
        (.arr [violationVal]) "").dispute_letter = ""
    ∧ process_credit_report emptyLetterEnv =
        (persistAndRespond emptyLetterEnv "JOHN DOE CHASE BANK Current" reportVal
           (.arr [violationVal]) "",
         [Step.fetch, Step.extract, Step.structuring, Step.detect,
          Step.draft, Step.persist]) := by
  have h := C8_amended_letter_handling emptyLetterEnv [37, 80, 68, 70]
    "JOHN DOE CHASE BANK Current" ("```json\n" ++ reportJson ++ "\n```")
    ("```\n" ++ violationsJson ++ "\n```")
    reportVal (.obj [("name", .str "JOHN DOE")]) (.arr [violationVal]) 1
    ⟨rfl, rfl⟩ rfl rfl (by decide) rfl rfl rfl rfl rfl rfl rfl
  exact ⟨rfl, (h.2 "" rfl).1, (h.2 "" rfl).2⟩

/-- List `dropWhile` is idempotent. -/
theorem dropWhile_idem {α : Type} (p : α → Bool) (l : List α) :
    (l.dropWhile p).dropWhile p = l.dropWhile p := by
  induction l with
  | nil => rfl
  | cons a t ih =>
    by_cases h : p a
    · simp [List.dropWhile_cons_of_pos h, ih]
    · simp [List.dropWhile_cons_of_neg h]

/-- A prefix of a `dropWhile`-fixed list is itself `dropWhile`-fixed. -/
theorem dropWhile_eq_self_of_initial {α : Type} {p : α → Bool} {l l' : List α}
    (h : l.dropWhile p = l) (hp : l' <+: l) : l'.dropWhile p = l' := by
  cases l' with
  | nil => rfl
  | cons a t =>
    obtain ⟨w, hw⟩ := hp
    by_cases hpa : p a
    · exfalso
      rw [← hw, List.cons_append, List.dropWhile_cons_of_pos hpa] at h
      have hle : ((t ++ w).dropWhile p).length ≤ (t ++ w).length :=
        (List.dropWhile_suffix p).length_le
      rw [h] at hle
      simp at hle
    · exact List.dropWhile_cons_of_neg hpa

/-- Python `strip` is idempotent. -/
theorem pyStrip_idem (s : List Char) : pyStrip (pyStrip s) = pyStrip s := by
  unfold pyStrip
  set u := s.dropWhile pyWs with hu_def
  set w := u.reverse.dropWhile pyWs with hw_def
  have hu : u.dropWhile pyWs = u := dropWhile_idem _ _
  have hw : w.dropWhile pyWs = w := by rw [hw_def]; exact dropWhile_idem _ _
  have hpre : w.reverse <+: u := by
    refine ⟨(u.reverse.takeWhile pyWs).reverse, ?_⟩
    calc w.reverse ++ (u.reverse.takeWhile pyWs).reverse
        = (u.reverse.takeWhile pyWs ++ w).reverse := by rw [List.reverse_append]
      _ = (u.reverse).reverse := by
          rw [hw_def, List.takeWhile_append_dropWhile]
      _ = u := List.reverse_reverse u
  have h1 : w.reverse.dropWhile pyWs = w.reverse := dropWhile_eq_self_of_initial hu hpre
  rw [h1, List.reverse_reverse, hw]

/-- Stripping is unaffected by a leading whitespace character. -/
theorem pyStrip_cons_ws {c : Char} (h : pyWs c = true) (l : List Char) :
    pyStrip (c :: l) = pyStrip l := by
  simp [pyStrip, List.dropWhile_cons, h]

/-- Stripping is unaffected by a trailing whitespace character. -/
theorem pyStrip_append_ws {c : Char} (h : pyWs c = true) (l : List Char) :
    pyStrip (l ++ [c]) = pyStrip l := by
  unfold pyStrip
  rw [List.dropWhile_append]
  by_cases he : (l.dropWhile pyWs).isEmpty = true
  · have hnil : l.dropWhile pyWs = [] := List.isEmpty_iff.mp he
    simp [he, hnil, List.dropWhile_cons, h]
  · have he' : (l.dropWhile pyWs).isEmpty = false := by
      rwa [Bool.not_eq_true] at he
    simp only [he', Bool.false_eq_true, if_false]
    rw [List.reverse_append]
    simp [List.dropWhile_cons, h]

/-- Stripping a ```json-fenced payload recovers the stripped payload. -/
theorem stripCodeFence_json_wrap (s : List Char) :
    stripCodeFence (fenceJsonOpen ++ s ++ fenceClose) = pyStrip s := by
  have hb : pyWs btick = false := by decide
  have hn : pyWs '\n' = true := by decide
  have hstrip : pyStrip (fenceJsonOpen ++ s ++ fenceClose)
      = fenceJsonOpen ++ s ++ fenceClose := by
    unfold pyStrip
    have h1 : (fenceJsonOpen ++ s ++ fenceClose).dropWhile pyWs
        = fenceJsonOpen ++ s ++ fenceClose := by
      simp [fenceJsonOpen, List.dropWhile_cons, hb]
    rw [h1]
    have h2 : (fenceJsonOpen ++ s ++ fenceClose).reverse.dropWhile pyWs
        = (fenceJsonOpen ++ s ++ fenceClose).reverse := by
      simp [fenceJsonOpen, fenceClose, List.reverse_append, List.dropWhile_cons, hb]
    rw [h2, List.reverse_reverse]
  have hpre : fenceJsonTag.isPrefixOf (fenceJsonOpen ++ s ++ fenceClose) = true := by
    rw [List.isPrefixOf_iff_prefix]
    exact ⟨'\n' :: (s ++ fenceClose), rfl⟩
  have hsuf : fenceTag.isSuffixOf (fenceJsonOpen ++ s ++ fenceClose) = true := by
    rw [List.isSuffixOf_iff_suffix]
    exact ⟨fenceJsonOpen ++ (s ++ ['\n']),
      by simp [fenceJsonOpen, fenceClose, fenceTag, List.append_assoc]⟩
  have hdrop : (fenceJsonOpen ++ s ++ fenceClose).drop 7 = '\n' :: (s ++ fenceClose) := by
    have hsplit : fenceJsonOpen ++ s ++ fenceClose
        = fenceJsonTag ++ ('\n' :: (s ++ fenceClose)) := rfl
    rw [hsplit, List.drop_left' (by rfl)]
  have hlen : (fenceJsonOpen ++ s ++ fenceClose).length - 3 - 7 = s.length + 2 := by
    simp [fenceJsonOpen, fenceClose]
  have htake : ('\n' :: (s ++ fenceClose)).take (s.length + 2)
      = '\n' :: (s ++ ['\n']) := by
    have hsplit : '\n' :: (s ++ fenceClose) = ('\n' :: (s ++ ['\n'])) ++ fenceTag := by
      simp [fenceClose, fenceTag]
    rw [hsplit, List.take_left' (by simp)]
  unfold stripCodeFence
  simp only [hstrip, hpre, hsuf, Bool.and_self, if_true, hlen, hdrop, htake]
  rw [pyStrip_cons_ws hn, pyStrip_append_ws hn]

/-- Stripping a plain-fenced payload recovers the stripped payload. -/
theorem stripCodeFence_plain_wrap (s : List Char) :
    stripCodeFence (fenceOpen ++ s ++ fenceClose) = pyStrip s := by
  have hb : pyWs btick = false := by decide
  have hn : pyWs '\n' = true := by decide
  have hstrip : pyStrip (fenceOpen ++ s ++ fenceClose)
      = fenceOpen ++ s ++ fenceClose := by
    unfold pyStrip
    have h1 : (fenceOpen ++ s ++ fenceClose).dropWhile pyWs
        = fenceOpen ++ s ++ fenceClose := by
      simp [fenceOpen, List.dropWhile_cons, hb]
    rw [h1]
    have h2 : (fenceOpen ++ s ++ fenceClose).reverse.dropWhile pyWs
        = (fenceOpen ++ s ++ fenceClose).reverse := by
      simp [fenceOpen, fenceClose, List.reverse_append, List.dropWhile_cons, hb]
    rw [h2, List.reverse_reverse]
  have hjson : fenceJsonTag.isPrefixOf (fenceOpen ++ s ++ fenceClose) = false := rfl
  have hpre : fenceTag.isPrefixOf (fenceOpen ++ s ++ fenceClose) = true := by
    rw [List.isPrefixOf_iff_prefix]
    exact ⟨'\n' :: (s ++ fenceClose), rfl⟩
  have hsuf : fenceTag.isSuffixOf (fenceOpen ++ s ++ fenceClose) = true := by
    rw [List.isSuffixOf_iff_suffix]
    exact ⟨fenceOpen ++ (s ++ ['\n']),
      by simp [fenceOpen, fenceClose, fenceTag, List.append_assoc]⟩
  have hdrop : (fenceOpen ++ s ++ fenceClose).drop 3 = '\n' :: (s ++ fenceClose) := by
    have hsplit : fenceOpen ++ s ++ fenceClose
        = fenceTag ++ ('\n' :: (s ++ fenceClose)) := rfl
    rw [hsplit, List.drop_left' (by rfl)]
  have hlen : (fenceOpen ++ s ++ fenceClose).length - 3 - 3 = s.length + 2 := by
    simp [fenceOpen, fenceClose]
  have htake : ('\n' :: (s ++ fenceClose)).take (s.length + 2)
      = '\n' :: (s ++ ['\n']) := by
    have hsplit : '\n' :: (s ++ fenceClose) = ('\n' :: (s ++ ['\n'])) ++ fenceTag := by
      simp [fenceClose, fenceTag]
    rw [hsplit, List.take_left' (by simp)]
  unfold stripCodeFence
  simp only [hstrip, hjson, hpre, hsuf, Bool.false_and, Bool.and_self,
    Bool.false_eq_true, if_false, if_true, hlen, hdrop, htake]
  rw [pyStrip_cons_ws hn, pyStrip_append_ws hn]

/-- On input whose stripped form is not fenced, `stripCodeFence` only
strips whitespace. -/
theorem stripCodeFence_unfenced {s : List Char}
    (h : fenceTag.isPrefixOf (pyStrip s) = false
       ∨ fenceTag.isSuffixOf (pyStrip s) = false) :
    stripCodeFence s = pyStrip s := by
  have hmono : fenceJsonTag.isPrefixOf (pyStrip s) = true →
      fenceTag.isPrefixOf (pyStrip s) = true := by
    intro ht
    rw [List.isPrefixOf_iff_prefix] at ht ⊢
    exact List.IsPrefix.trans ⟨['j', 's', 'o', 'n'], rfl⟩ ht
  have hplain : (fenceTag.isPrefixOf (pyStrip s)
      && fenceTag.isSuffixOf (pyStrip s)) = false := by
    rcases h with h | h <;> simp [h]
  have hjson : (fenceJsonTag.isPrefixOf (pyStrip s)
      && fenceTag.isSuffixOf (pyStrip s)) = false := by
    rcases h with h | h
    · cases hj : fenceJsonTag.isPrefixOf (pyStrip s)
      · simp
      · rw [hmono hj] at h
        simp at h
    · simp [h]
  unfold stripCodeFence
  simp only [hjson, hplain, Bool.false_eq_true, if_false]

/-- On already-unfenced input, `stripCodeFence` is idempotent. -/
theorem stripCodeFence_idem_unfenced {s : List Char}
    (h : fenceTag.isPrefixOf (pyStrip s) = false
       ∨ fenceTag.isSuffixOf (pyStrip s) = false) :
    stripCodeFence (stripCodeFence s) = stripCodeFence s := by
  rw [stripCodeFence_unfenced h]
  have h' : fenceTag.isPrefixOf (pyStrip (pyStrip s)) = false
      ∨ fenceTag.isSuffixOf (pyStrip (pyStrip s)) = false := by
    rw [pyStrip_idem]; exact h
  rw [stripCodeFence_unfenced h', pyStrip_idem]

/-- C3: for every payload `s`, wrapping `s` in a markdown ```json fence
or a plain ``` fence and then applying the orchestrator's
fence-stripping yields the same parse as parsing `s` unfenced, for any
parse `J` that is insensitive to surrounding whitespace (as
`json.loads` is); and on input whose stripped form is not fenced,
stripping is idempotent. -/
theorem C3_fence_round_trip (s : List Char) (α : Type) (J : List Char → α)
    (hJ : ∀ t, J (pyStrip t) = J t) :
    J (stripCodeFence (fenceJsonOpen ++ s ++ fenceClose)) = J s
    ∧ J (stripCodeFence (fenceOpen ++ s ++ fenceClose)) = J s
    ∧ (fenceTag.isPrefixOf (pyStrip s) = false
        ∨ fenceTag.isSuffixOf (pyStrip s) = false →
        stripCodeFence (stripCodeFence s) = stripCodeFence s) := by
  refine ⟨?_, ?_, fun h => stripCodeFence_idem_unfenced h⟩
  · rw [stripCodeFence_json_wrap, hJ]
  · rw [stripCodeFence_plain_wrap, hJ]

theorem C3_fence_round_trip_witness :
    (∀ t, pyStrip (pyStrip t) = pyStrip t)
    ∧ (pyStrip (stripCodeFence (fenceJsonOpen ++ ['[', '1', ']'] ++ fenceClose))
          = pyStrip ['[', '1', ']']
      ∧ pyStrip (stripCodeFence (fenceOpen ++ ['[', '1', ']'] ++ fenceClose))
          = pyStrip ['[', '1', ']']
      ∧ (fenceTag.isPrefixOf (pyStrip ['[', '1', ']']) = false
          ∨ fenceTag.isSuffixOf (pyStrip ['[', '1', ']']) = false →
          stripCodeFence (stripCodeFence ['[', '1', ']'])
            = stripCodeFence ['[', '1', ']'])) :=
  ⟨pyStrip_idem,
    C3_fence_round_trip ['[', '1', ']'] (List Char) pyStrip pyStrip_idem⟩
